import Mathlib

/-!
Verification of the Querymind agent core (src/Querymind/tools.py,
src/Querymind/agent.py, src/app.py) against its design specification.

The embedding models:
 * SQLite values, tables and databases, together with the fragment of the
   engine's behaviour the four built-in tools rely on (sqlite_master
   listing with `NOT LIKE 'sqlite_%'`, `SELECT * FROM t LIMIT n`,
   `PRAGMA table_info`); arbitrary SQL run through `execute_sql` is
   modelled by an abstract engine oracle.
 * the scoped session `with_sql_cursor` as a function that, past the
   database-path precondition, runs the body and records the transaction
   and release actions (`commit` / `rollback` / `close`) it performs.
 * python exceptions as an `Except` error channel (`PyExn`); code that
   catches exceptions pattern matches on it, code without a handler
   propagates it.
 * the four tools and the dispatcher `call_tool` of tools.py.
 * the conversation loop `ask` of agent.py over a small mutable-list heap,
   so that the distinction between the caller's `history` list object and
   the private `history.copy()` made by `ask` is expressible.
 * the session persistence of app.py (`save_session` / `load_session`).
-/

deriving instance DecidableEq for Except

namespace Querymind

/-! ## SQLite data model -/

/-- A SQLite column value as surfaced by the Python driver. -/
inductive Value where
  | int (i : Int)
  | text (s : String)
  | null
deriving DecidableEq, Repr

/-- Column metadata as reported by `PRAGMA table_info`. -/
structure Column where
  name : String
  ctype : String
  notnull : Bool
  dflt : Option Value
  pk : Nat
deriving DecidableEq, Repr

structure Table where
  name : String
  columns : List Column
  rows : List (List Value)
deriving DecidableEq, Repr

/-- A SQLite database file: its tables (views and indexes are not used by
any of the tools under verification). -/
structure Database where
  tables : List Table
deriving DecidableEq, Repr

def findTable (db : Database) (tn : String) : Option Table :=
  db.tables.find? (fun t => t.name = tn)

/-- Process state read by the tools: `Config.Path.DATABASE_PATH` and the
filesystem mapping a path to the SQLite database stored there.
`DATABASE_PATH` is `none` when unset (app.py initialises it to `None`). -/
structure Env where
  databasePath : Option String
  files : List (String × Database)
deriving DecidableEq, Repr

def lookupFile : List (String × Database) → String → Option Database
  | [], _ => none
  | (k, v) :: rest, p => if k = p then some v else lookupFile rest p

def updateFile : List (String × Database) → String → Database → List (String × Database)
  | [], _, _ => []
  | (k, v) :: rest, p, db => if k = p then (k, db) :: rest else (k, v) :: updateFile rest p db

/-! ## Python-level rendering helpers

`str(...)` of the Python values the tools build.  `pyRepr` models CPython
`repr` on strings restricted to the escapes relevant here (newline,
backslash, quote); `pyJoin` is `sep.join(list)`. -/

/-- The single-quote character, written by code point to keep source plain. -/
def squoteChar : Char := Char.ofNat 39

def squote : String := String.mk [squoteChar]

def escChar (c : Char) : List Char :=
  if c = '\n' then ['\\', 'n']
  else if c = '\\' then ['\\', '\\']
  else if c = squoteChar then ['\\', squoteChar]
  else [c]

def pyEscape (s : String) : String := String.mk (s.data.map escChar).flatten

def pyRepr (s : String) : String := squote ++ pyEscape s ++ squote

def pyJoin (sep : String) : List String → String
  | [] => ""
  | [s] => s
  | s :: rest => s ++ sep ++ pyJoin sep rest

/-- `str` of a Python list of strings, e.g. `[]` or `['a', 'b']`. -/
def pyStrList (names : List String) : String :=
  "[" ++ pyJoin ", " (names.map pyRepr) ++ "]"

/-- Decimal digits, most significant first; the fuel (first argument) is
structural so that the definition evaluates inside the kernel, and
`n + 1` units always suffice. -/
def natCharsCore : Nat → Nat → List Char → List Char
  | 0, _, acc => acc
  | fuel + 1, n, acc =>
    if n < 10 then Char.ofNat (48 + n) :: acc
    else natCharsCore fuel (n / 10) (Char.ofNat (48 + n % 10) :: acc)

def natChars (n : Nat) : List Char := natCharsCore (n + 1) n []

def intChars (i : Int) : List Char :=
  if i < 0 then '-' :: natChars (-i).toNat else natChars i.toNat

/-- `repr` of one column value inside a Python row tuple. -/
def renderValue : Value → String
  | .int i => String.mk (intChars i)
  | .text s => pyRepr s
  | .null => "None"

/-- `str(row)` for a row fetched by the sqlite3 driver (a Python tuple);
note the trailing comma CPython prints for 1-tuples. -/
def renderRow (r : List Value) : String :=
  match r with
  | [v] => "(" ++ renderValue v ++ ",)"
  | _ => "(" ++ pyJoin ", " (r.map renderValue) ++ ")"

/-! ## SQL LIKE

`name NOT LIKE 'sqlite_%'` in list_tables.  SQLite LIKE is
case-insensitive on ASCII; `%` matches any sequence, `_` matches exactly
one character. -/

def lowerAscii (c : Char) : Char :=
  if 'A' ≤ c && c ≤ 'Z' then Char.ofNat (c.toNat + 32) else c

/-- Helper for `%`: try to match the rest of the pattern (`f`) against
every suffix of the string. -/
def likeStar (f : List Char → Bool) : List Char → Bool
  | [] => f []
  | c :: ss => f (c :: ss) || likeStar f ss

def likeChars : List Char → List Char → Bool
  | [], s => s.isEmpty
  | '%' :: ps, s => likeStar (fun t => likeChars ps t) s
  | '_' :: ps, s =>
    match s with
    | [] => false
    | _ :: ss => likeChars ps ss
  | p :: ps, s =>
    match s with
    | [] => false
    | c :: ss => (lowerAscii p == lowerAscii c) && likeChars ps ss

def likeMatch (pat s : String) : Bool := likeChars pat.data s.data

/-! ## Python exceptions -/

inductive PyExn where
  | fileNotFound (msg : String)
  | keyError (key : String)
  | validationError (msg : String)
  | operationalError (msg : String)
  | runtimeError (msg : String)
deriving DecidableEq, Repr

/-- `str(e)` for the exceptions above (CPython renders `KeyError` with the
missing key quoted). -/
def exnStr : PyExn → String
  | .fileNotFound m => m
  | .keyError k => pyRepr k
  | .validationError m => m
  | .operationalError m => m
  | .runtimeError m => m

/-! ## Scoped database session: `with_sql_cursor` (tools.py lines 54-88) -/

/-- Transaction / release actions the session performs on the sqlite3
connection, in the order they happen. -/
inductive DBEvent where
  | commit
  | rollback
  | closeCursor
  | closeConn
deriving DecidableEq, Repr

structure SqlRun (α : Type) where
  result : Except PyExn α
  events : List DBEvent
  env : Env
deriving Repr

/-- `with_sql_cursor(readonly=True)`: raise `FileNotFoundError` when
`Config.Path.DATABASE_PATH` is unset or the file does not exist; otherwise
connect, run the body, commit on success / roll back on failure when not
readonly, and close cursor and connection on every exit path.  The body
receives the database and returns its result together with the
(uncommitted) database state of the connection; a commit persists that
state to the file. -/
def with_sql_cursor {α : Type} (env : Env) (readonly : Bool)
    (body : Database → Except PyExn (α × Database)) : SqlRun α :=
  match env.databasePath with
  | none => ⟨.error (.fileNotFound "Database file not found: None"), [], env⟩
  | some p =>
    match lookupFile env.files p with
    | none => ⟨.error (.fileNotFound ("Database file not found: " ++ p)), [], env⟩
    | some db =>
      match body db with
      | .ok (a, db2) =>
        if readonly then ⟨.ok a, [.closeCursor, .closeConn], env⟩
        else ⟨.ok a, [.commit, .closeCursor, .closeConn],
              { env with files := updateFile env.files p db2 }⟩
      | .error e =>
        if readonly then ⟨.error e, [.closeCursor, .closeConn], env⟩
        else ⟨.error e, [.rollback, .closeCursor, .closeConn], env⟩

/-! ## The four tools (tools.py lines 91-211)

Every tool wraps its body in `try/except`, catching `FileNotFoundError`
separately from all other exceptions, so a tool call always returns a
string and never raises; `ToolOut` additionally records the session
events and the resulting process state for the theorems. -/

structure ToolOut where
  out : String
  events : List DBEvent
  env : Env
deriving Repr

def noDbMsg : String :=
  "Error: No database has been uploaded yet. Please upload a SQLite database file first."

/-- An arbitrary-SQL engine oracle standing for sqlite3 statement
execution inside `execute_sql`: given the connection's database state and
the statement text it either fails with an error message or returns the
fetched rows and the updated (uncommitted) database state. -/
def Engine : Type := Database → String → Except String (List (List Value) × Database)

/-- `list_tables`: `SELECT name FROM sqlite_master WHERE type='table' AND
name NOT LIKE 'sqlite_%';` then `str(tables)`.  Note every tool calls
`with_sql_cursor()` with the readonly default `True`. -/
def list_tables (env : Env) (reasoning : String) : ToolOut :=
  match with_sql_cursor env true (fun db =>
    .ok ((db.tables.map Table.name).filter (fun n => !(likeMatch "sqlite_%" n)), db)) with
  | ⟨.ok tables, evs, env2⟩ => ⟨pyStrList tables, evs, env2⟩
  | ⟨.error (.fileNotFound _), evs, env2⟩ => ⟨noDbMsg, evs, env2⟩
  | ⟨.error e, evs, env2⟩ => ⟨"Error listing tables: " ++ exnStr e, evs, env2⟩

/-- `sample_table`: `SELECT * FROM {table_name} LIMIT {row_sample_size};`
(the engine reports `no such table` for an unknown name; a negative LIMIT
means no limit in SQLite), rows rendered one per line. -/
def sample_table (env : Env) (reasoning table_name : String)
    (row_sample_size : Int) : ToolOut :=
  match with_sql_cursor env true (fun db =>
    match findTable db table_name with
    | some t =>
      .ok ((if row_sample_size < 0 then t.rows else t.rows.take row_sample_size.toNat), db)
    | none => .error (.operationalError ("no such table: " ++ table_name))) with
  | ⟨.ok rows, evs, env2⟩ => ⟨pyJoin "\n" (rows.map renderRow), evs, env2⟩
  | ⟨.error (.fileNotFound _), evs, env2⟩ => ⟨noDbMsg, evs, env2⟩
  | ⟨.error e, evs, env2⟩ => ⟨"Error sampling table: " ++ exnStr e, evs, env2⟩

/-- `PRAGMA table_info('t')` rows: `(cid, name, type, notnull, dflt_value,
pk)`; the pragma yields no rows for an unknown table. -/
def tableInfoRows (t : Table) : List (List Value) :=
  t.columns.enum.map (fun ic =>
    [Value.int ic.fst, Value.text ic.snd.name, Value.text ic.snd.ctype,
     Value.int (if ic.snd.notnull then 1 else 0),
     (match ic.snd.dflt with | some v => v | none => Value.null),
     Value.int ic.snd.pk])

/-- `describe_table`: `PRAGMA table_info('{table_name}');`, one column
tuple per line. -/
def describe_table (env : Env) (reasoning table_name : String) : ToolOut :=
  match with_sql_cursor env true (fun db =>
    match findTable db table_name with
    | some t => .ok (tableInfoRows t, db)
    | none => .ok ([], db)) with
  | ⟨.ok rows, evs, env2⟩ => ⟨pyJoin "\n" (rows.map renderRow), evs, env2⟩
  | ⟨.error (.fileNotFound _), evs, env2⟩ => ⟨noDbMsg, evs, env2⟩
  | ⟨.error e, evs, env2⟩ => ⟨"Error describing table: " ++ exnStr e, evs, env2⟩

/-- `execute_sql`: runs the statement as supplied through the engine.
The source opens the session as `with_sql_cursor()` — the readonly
default `True` — so the session never commits. -/
def execute_sql (engine : Engine) (env : Env) (reasoning sql_query : String) : ToolOut :=
  match with_sql_cursor env true (fun db =>
    match engine db sql_query with
    | .ok (rows, db2) => .ok (rows, db2)
    | .error m => .error (.operationalError m)) with
  | ⟨.ok rows, evs, env2⟩ => ⟨pyJoin "\n" (rows.map renderRow), evs, env2⟩
  | ⟨.error (.fileNotFound _), evs, env2⟩ => ⟨noDbMsg, evs, env2⟩
  | ⟨.error e, evs, env2⟩ => ⟨"Error running query: " ++ exnStr e, evs, env2⟩

/-! ## Messages and tool calls (langchain_core.messages) -/

/-- The argument mapping of a tool call: one optional slot per argument
name occurring across the four tools (a missing required slot fails the
tool's pydantic validation inside `BaseTool.invoke`, which raises). -/
structure Args where
  reasoning : Option String
  table_name : Option String
  row_sample_size : Option Int
  sql_query : Option String
deriving DecidableEq, Repr

def Args.none' : Args := ⟨none, none, none, none⟩

structure ToolCall where
  id : String
  name : String
  args : Args
deriving DecidableEq, Repr

/-- Conversation message variants: SystemMessage, HumanMessage, AIMessage
(with its tool-call requests) and ToolMessage (tagged with the id of the
originating call). -/
inductive Message where
  | system (content : String)
  | human (content : String)
  | ai (content : String) (tool_calls : List ToolCall)
  | tool (content : String) (tool_call_id : String)
deriving DecidableEq, Repr

/-! ## Tool registry and dispatcher (tools.py lines 27-51) -/

/-- A registered langchain tool: its name and `invoke`, which validates
the argument mapping against the tool's schema (raising a validation
error on a missing required argument) and then runs the tool body. -/
structure PyTool where
  name : String
  invoke : Engine → Env → Args → Except PyExn (String × Env)

def list_tables_tool : PyTool :=
  ⟨"list_tables", fun _ env a =>
    match a.reasoning with
    | some r => let o := list_tables env r; .ok (o.out, o.env)
    | none => .error (.validationError "validation error for list_tables")⟩

def sample_table_tool : PyTool :=
  ⟨"sample_table", fun _ env a =>
    match a.reasoning, a.table_name, a.row_sample_size with
    | some r, some tn, some n => let o := sample_table env r tn n; .ok (o.out, o.env)
    | _, _, _ => .error (.validationError "validation error for sample_table")⟩

def describe_table_tool : PyTool :=
  ⟨"describe_table", fun _ env a =>
    match a.reasoning, a.table_name with
    | some r, some tn => let o := describe_table env r tn; .ok (o.out, o.env)
    | _, _ => .error (.validationError "validation error for describe_table")⟩

def execute_sql_tool : PyTool :=
  ⟨"execute_sql", fun engine env a =>
    match a.reasoning, a.sql_query with
    | some r, some q => let o := execute_sql engine env r q; .ok (o.out, o.env)
    | _, _ => .error (.validationError "validation error for execute_sql")⟩

def get_available_tools : List PyTool :=
  [list_tables_tool, sample_table_tool, describe_table_tool, execute_sql_tool]

/-- `call_tool` (tools.py lines 37-51): build `tools_by_name`, index it
with the requested name — a plain dict subscript, so an unknown name
raises `KeyError` (there is no try/except in this function) — invoke the
tool, and wrap the response in a `ToolMessage` tagged with the call id. -/
def call_tool (engine : Engine) (env : Env) (tc : ToolCall) :
    Except PyExn Message × Env :=
  match get_available_tools.find? (fun t => t.name = tc.name) with
  | none => (.error (.keyError tc.name), env)
  | some tool =>
    match tool.invoke engine env tc.args with
    | .ok (content, env2) => (.ok (.tool content tc.id), env2)
    | .error e => (.error e, env)

/-! ## Conversation loop (agent.py lines 60-115)

Python lists are mutable objects; `ask` copies the caller's `history`
list and appends only to the copy.  To make that observable the loop is
embedded over a heap of list cells: `ask` receives a reference to the
caller's history cell, allocates a fresh cell holding a copy, and all
appends target the fresh cell. -/

structure Heap where
  cells : Nat → List Message
  next : Nat

def Heap.get (h : Heap) (r : Nat) : List Message := h.cells r

def Heap.set (h : Heap) (r : Nat) (v : List Message) : Heap :=
  ⟨fun i => if i = r then v else h.cells i, h.next⟩

def Heap.push (h : Heap) (r : Nat) (m : Message) : Heap :=
  h.set r (h.get r ++ [m])

/-- `history.copy()`: allocate a fresh cell with the same contents. -/
def Heap.alloc (h : Heap) (v : List Message) : Heap × Nat :=
  (⟨fun i => if i = h.next then v else h.cells i, h.next + 1⟩, h.next)

/-- The system prompt text of agent.py (its exact wording is irrelevant
to every claim; only its role as the single SystemMessage matters). -/
def SYSTEM_PROMPT : String :=
  "You are QueryMind, an elite database engineer and data analyst."

/-- `create_history()`: the initial history holding only the system
prompt. -/
def create_history : List Message := [Message.system SYSTEM_PROMPT]

/-- One model response (`llm.invoke(messages)` returns an AIMessage):
text content plus the tool-call requests it carries. -/
structure Response where
  content : String
  tool_calls : List ToolCall
deriving DecidableEq, Repr

/-- A model stub, indexed by the ordinal of the invocation (the loop is
deterministic, so any history-dependent model induces such a stub for
the run under study; the source passes the full message list to
`llm.invoke`). -/
def Stub : Type := Nat → Response

def limitMsg : String :=
  "Maximum number of iterations reached. Please try again with a different query."

/-- The `for tool_call in response.tool_calls:` body: dispatch each call
in order, appending each tool-result to the messages cell immediately;
an exception raised by `call_tool` propagates and aborts the batch. -/
def runTools (engine : Engine) :
    Env → Heap → Nat → List ToolCall → Except (PyExn × Heap × Env) (Heap × Env)
  | env, h, _, [] => .ok (h, env)
  | env, h, msgs, tc :: rest =>
    match call_tool engine env tc with
    | (.ok m, env2) => runTools engine env2 (h.push msgs m) msgs rest
    | (.error e, env2) => .error (e, h, env2)

/-- Outcome of a run of `ask`: the returned string or the propagated
exception, the final heap, the number of model invocations performed,
the final process state, and (ghost) the message list passed to the
model at each invocation. -/
structure AskResult where
  result : Except PyExn String
  heap : Heap
  invocations : Nat
  env : Env
  trace : List (List Message)

/-- The `while n_iterations < max_iterations:` loop, with
`fuel = max_iterations - n_iterations`: invoke the model, append its
response, return its content if it carries no tool calls, otherwise
dispatch every tool call and iterate; once the fuel is exhausted raise
`RuntimeError`. -/
def askLoop (stub : Stub) (engine : Engine) :
    Env → Heap → Nat → Nat → Nat → AskResult
  | env, h, _, invok, 0 => ⟨.error (.runtimeError limitMsg), h, invok, env, []⟩
  | env, h, msgs, invok, fuel + 1 =>
    let sent := h.get msgs
    let response := stub invok
    let h2 := h.push msgs (.ai response.content response.tool_calls)
    if response.tool_calls = [] then
      ⟨.ok response.content, h2, invok + 1, env, [sent]⟩
    else
      match runTools engine env h2 msgs response.tool_calls with
      | .ok (h3, env2) =>
        let r := askLoop stub engine env2 h3 msgs (invok + 1) fuel
        ⟨r.result, r.heap, r.invocations, r.env, sent :: r.trace⟩
      | .error (e, h3, env2) => ⟨.error e, h3, invok + 1, env2, [sent]⟩

/-- `ask(query, history, llm, max_iterations=10)` (agent.py lines
70-115): copy the history, append the user message to the copy, and run
the loop. -/
def ask (stub : Stub) (engine : Engine) (env : Env) (query : String)
    (h : Heap) (history : Nat) (max_iterations : Nat) : AskResult :=
  let alloc := h.alloc (h.get history)
  let h2 := alloc.fst.push alloc.snd (.human query)
  askLoop stub engine env h2 alloc.snd 0 max_iterations

/-! ## Session persistence (app.py lines 126-189) -/

/-- One serialized message of `conversation_json`:
`{"type": msg.__class__.__name__, "content": msg.content}` (the JSON
encode/decode pair `json.dumps`/`json.loads` is an external inverse and
is not re-modelled). -/
structure SerializedMsg where
  type : String
  content : String
deriving DecidableEq, Repr

def className : Message → String
  | .system _ => "SystemMessage"
  | .human _ => "HumanMessage"
  | .ai _ _ => "AIMessage"
  | .tool _ _ => "ToolMessage"

def contentOf : Message → String
  | .system c => c
  | .human c => c
  | .ai c _ => c
  | .tool c _ => c

def isSystem : Message → Bool
  | .system _ => true
  | _ => false

def serializeMsg (m : Message) : SerializedMsg := ⟨className m, contentOf m⟩

/-- One row of the `sessions` table. -/
structure SessionRow where
  session_id : Nat
  user_id : Nat
  title : String
  conversation_json : List SerializedMsg
deriving DecidableEq, Repr

/-- The conversations store; `nextId` models the AUTO_INCREMENT counter
whose value an INSERT returns through `cursor.lastrowid`. -/
structure ConvStore where
  rows : List SessionRow
  nextId : Nat
deriving DecidableEq, Repr

/-- The fragment of `st.session_state` save/load read. -/
structure AppState where
  is_guest : Bool
  user_id : Option Nat
deriving DecidableEq, Repr

/-- `save_session` (app.py lines 126-159): no-op for guests or a missing
user id; otherwise serialize every non-system message in order and
either INSERT a fresh row (returning `lastrowid`) or UPDATE the matching
row.  The generated `Chat@...` title string is irrelevant to the claims
and kept abstract. -/
def save_session (st : AppState) (store : ConvStore) (session_id : Option Nat)
    (title : String) (messages : List Message) : Option Nat × ConvStore :=
  if st.is_guest then (none, store)
  else
    match st.user_id with
    | none => (none, store)
    | some uid =>
      let ser := (messages.filter (fun m => !(isSystem m))).map serializeMsg
      match session_id with
      | none =>
        (some store.nextId,
         ⟨store.rows ++ [⟨store.nextId, uid, "Chat@now", ser⟩], store.nextId + 1⟩)
      | some sid =>
        (some sid,
         ⟨store.rows.map (fun row =>
            if row.session_id = sid && row.user_id = uid then
              { row with title := title, conversation_json := ser }
            else row), store.nextId⟩)

def deserializeMsg (s : SerializedMsg) : Option Message :=
  if s.type = "HumanMessage" then some (.human s.content)
  else if s.type = "AIMessage" then some (.ai s.content [])
  else none

/-- `load_session` (app.py lines 161-189): guests and missing user ids
get a fresh history; otherwise fetch the first row matching the session
and user, prepend `create_history()` and re-create only the Human and AI
messages, in order. -/
def load_session (st : AppState) (store : ConvStore) (sid : Nat) : List Message :=
  if st.is_guest then create_history
  else
    match st.user_id with
    | none => create_history
    | some uid =>
      match store.rows.find? (fun row => row.session_id = sid && row.user_id = uid) with
      | some row => create_history ++ row.conversation_json.filterMap deserializeMsg
      | none => create_history

/-- The user/assistant text sequence of a history (the projection claim
C9 compares across the save/load round trip). -/
def userAssistantText : List Message → List (Bool × String)
  | [] => []
  | .human c :: rest => (true, c) :: userAssistantText rest
  | .ai c _ :: rest => (false, c) :: userAssistantText rest
  | _ :: rest => userAssistantText rest

/-! ## Concrete inputs and claim-side definitions

Concrete databases, environments, stubs and the spec-side
definitions used by the claim theorems and their witnesses below. -/

/-- The "no database" precondition of C5: the handle is unset, or no
file is present at its target. -/
def dbUnavailable (env : Env) : Bool :=
  match env.databasePath with
  | none => true
  | some p => (lookupFile env.files p).isNone

/-- A one-table database and a reachable environment for exercising
`execute_sql` on a mutating statement. -/
def c1Db : Database := ⟨[⟨"items", [⟨"id", "INTEGER", false, none, 0⟩], []⟩]⟩

def c1Env : Env := ⟨some "data.db", [("data.db", c1Db)]⟩

/-- An engine for which the INSERT below succeeds, reporting the grown
(uncommitted) table state back to the session. -/
def c1Engine : Engine := fun db q =>
  if q = "INSERT INTO items VALUES (1)" then
    .ok ([], ⟨[⟨"items", [⟨"id", "INTEGER", false, none, 0⟩], [[Value.int 1]]⟩]⟩)
  else (.error "unexpected statement", db).fst

/-- Concrete inputs for the C6 witness: one committing run and one
rolled-back run of the session. -/
def c6Env : Env := ⟨some "w.db", [("w.db", c1Db)]⟩

def c6BodyOk : Database → Except PyExn (Nat × Database) := fun db => .ok (7, db)

def c6BodyErr : Database → Except PyExn (Nat × Database) :=
  fun _ => .error (.operationalError "boom")

/-- An engine that is never consulted by the calls below. -/
def c2Engine : Engine := fun db _ => .ok ([], db)

def c2Env : Env := ⟨none, []⟩

/-- Whether the argument mapping carries every argument required by the
named tool's schema. -/
def requiredArgsPresent (name : String) (a : Args) : Bool :=
  if name = "list_tables" then a.reasoning.isSome
  else if name = "sample_table" then
    a.reasoning.isSome && a.table_name.isSome && a.row_sample_size.isSome
  else if name = "describe_table" then a.reasoning.isSome && a.table_name.isSome
  else if name = "execute_sql" then a.reasoning.isSome && a.sql_query.isSome
  else false

/-- The claim's own notion of "engine-internal": a literal `sqlite_`
prefix (spec wording; compare with the LIKE pattern the code sends). -/
def hasSqlitePre (n : String) : Bool :=
  match n.data with
  | 's' :: 'q' :: 'l' :: 'i' :: 't' :: 'e' :: '_' :: _ => true
  | _ => false

/-- `list_tables` as the claim describes it: render the user-table names
minus the `sqlite_`-prefixed ones.  (Definition follows the spec's words,
for comparison with the code's behaviour.) -/
def listTablesSpec (db : Database) : String :=
  pyStrList ((db.tables.map Table.name).filter (fun n => !(hasSqlitePre n)))

/-- A database with the single user table `sqlites` — a legal SQLite name
(the reserved check is for the 7-character prefix `sqlite_`), yet matched
by the pattern `sqlite_%` because `_` is the one-character LIKE wildcard. -/
def c7Db : Database := ⟨[⟨"sqlites", [⟨"id", "INTEGER", false, none, 0⟩], []⟩]⟩

def c7Env : Env := ⟨some "c7.db", [("c7.db", c7Db)]⟩

/-- Witness for C7 (amended): a database holding one internal and one
user table. -/
def c7WitnessDb : Database :=
  ⟨[⟨"sqlite_sequence", [], []⟩, ⟨"users", [], []⟩]⟩

/-- Number of text lines of a rendered result: zero for the empty string,
otherwise one more than the number of newline separators. -/
def countLines (s : String) : Nat :=
  if s.data = [] then 0 else s.data.count '\n' + 1

/-- Concrete inputs for the C8 witness: one-row table, N = 3. -/
def c8Db : Database := ⟨[⟨"t", [⟨"id", "INTEGER", false, none, 0⟩], [[Value.int 1]]⟩]⟩

def c8Env : Env := ⟨some "c8.db", [("c8.db", c8Db)]⟩

/-- Concrete inputs for the C9 witness: a mixed conversation containing
system, user, assistant (with a tool call) and tool messages. -/
def c9St : AppState := ⟨false, some 5⟩

def c9Store : ConvStore := ⟨[], 0⟩

def c9Msgs : List Message :=
  [.system SYSTEM_PROMPT, .human "hi",
   .ai "looking" [⟨"1", "list_tables", Args.none'⟩],
   .tool "[]" "1", .ai "no tables" []]

def defaultToolCall : ToolCall := ⟨"", "", Args.none'⟩

/-- A heap whose cell 0 holds the caller's history. -/
def loopHeap : Heap := ⟨fun i => if i = 0 then create_history else [], 1⟩

def loopEngine : Engine := fun db _ => .ok ([], db)

def loopEnv : Env := ⟨some "a.db", [("a.db", ⟨[⟨"t", [], [[Value.int 1]]⟩]⟩)]⟩

/-- A well-formed call of the `list_tables` tool. -/
def ltCall : ToolCall := ⟨"c1", "list_tables", ⟨some "why", none, none, none⟩⟩

/-- A stub that requests `list_tables` on every invocation. -/
def stubAlways : Stub := fun _ => ⟨"", [ltCall]⟩

/-- A stub that requests a tool that is not in the registry. -/
def stubBogus : Stub := fun _ => ⟨"x", [⟨"call_1", "bogus", Args.none'⟩]⟩

/-- A stub that issues tool calls twice and then answers. -/
def stubStops : Stub := fun i => if i < 2 then ⟨"", [ltCall]⟩ else ⟨"final answer", []⟩

/-! # Helper lemmas -/

theorem with_sql_cursor_unavailable {α : Type} (env : Env) (ro : Bool)
    (body : Database → Except PyExn (α × Database)) (h : dbUnavailable env = true) :
    ∃ m, with_sql_cursor env ro body = ⟨.error (.fileNotFound m), [], env⟩ := by
  unfold dbUnavailable at h
  cases hp : env.databasePath with
  | none => exact ⟨"Database file not found: None", by simp [with_sql_cursor, hp]⟩
  | some p =>
    rw [hp] at h
    simp only [] at h
    cases hl : lookupFile env.files p with
    | none => exact ⟨"Database file not found: " ++ p, by simp [with_sql_cursor, hp, hl]⟩
    | some db => rw [hl] at h; simp [Option.isNone] at h

theorem with_sql_cursor_readonly_no_commit {α : Type} (env : Env)
    (body : Database → Except PyExn (α × Database)) :
    DBEvent.commit ∉ (with_sql_cursor env true body).events
    ∧ (with_sql_cursor env true body).env = env := by
  cases hp : env.databasePath with
  | none => simp [with_sql_cursor, hp]
  | some p =>
    cases hl : lookupFile env.files p with
    | none => simp [with_sql_cursor, hp, hl]
    | some db =>
      cases hb : body db with
      | ok x => cases x; simp [with_sql_cursor, hp, hl, hb]
      | error e => simp [with_sql_cursor, hp, hl, hb]

theorem with_sql_cursor_ok {α : Type} (env : Env) (p : String) (db : Database)
    (body : Database → Except PyExn (α × Database)) (a : α) (db2 : Database)
    (hp : env.databasePath = some p) (hl : lookupFile env.files p = some db)
    (hb : body db = .ok (a, db2)) :
    with_sql_cursor env true body = ⟨.ok a, [.closeCursor, .closeConn], env⟩ := by
  simp [with_sql_cursor, hp, hl, hb]

theorem execute_sql_no_commit (engine : Engine) (env : Env) (r q : String) :
    DBEvent.commit ∉ (execute_sql engine env r q).events
    ∧ (execute_sql engine env r q).env = env := by
  have h := with_sql_cursor_readonly_no_commit env (fun db =>
    match engine db q with
    | .ok (rows, db2) => .ok (rows, db2)
    | .error m => .error (.operationalError m))
  rcases hs : with_sql_cursor env true (fun db =>
    match engine db q with
    | .ok (rows, db2) => .ok (rows, db2)
    | .error m => .error (.operationalError m)) with ⟨res, evs, env2⟩
  rw [hs] at h
  unfold execute_sql
  rw [hs]
  rcases res with e | rows
  · cases e <;> simpa using h
  · simpa using h

theorem execute_sql_env (engine : Engine) (env : Env) (r q : String) :
    (execute_sql engine env r q).env = env := (execute_sql_no_commit engine env r q).2

theorem list_tables_no_commit (env : Env) (r : String) :
    DBEvent.commit ∉ (list_tables env r).events := by
  have h := with_sql_cursor_readonly_no_commit env (fun db =>
    .ok ((db.tables.map Table.name).filter (fun n => !(likeMatch "sqlite_%" n)), db))
  rcases hs : with_sql_cursor env true (fun db =>
    .ok ((db.tables.map Table.name).filter (fun n => !(likeMatch "sqlite_%" n)), db))
    with ⟨res, evs, env2⟩
  rw [hs] at h
  unfold list_tables
  rw [hs]
  rcases res with e | rows
  · cases e <;> simpa using h.1
  · simpa using h.1

theorem sample_table_no_commit (env : Env) (r tn : String) (n : Int) :
    DBEvent.commit ∉ (sample_table env r tn n).events := by
  have h := with_sql_cursor_readonly_no_commit env (fun db =>
    match findTable db tn with
    | some t => .ok ((if n < 0 then t.rows else t.rows.take n.toNat), db)
    | none => .error (.operationalError ("no such table: " ++ tn)))
  rcases hs : with_sql_cursor env true (fun db =>
    match findTable db tn with
    | some t => .ok ((if n < 0 then t.rows else t.rows.take n.toNat), db)
    | none => .error (.operationalError ("no such table: " ++ tn)))
    with ⟨res, evs, env2⟩
  rw [hs] at h
  unfold sample_table
  rw [hs]
  rcases res with e | rows
  · cases e <;> simpa using h.1
  · simpa using h.1

theorem describe_table_no_commit (env : Env) (r tn : String) :
    DBEvent.commit ∉ (describe_table env r tn).events := by
  have h := with_sql_cursor_readonly_no_commit env (fun db =>
    match findTable db tn with
    | some t => .ok (tableInfoRows t, db)
    | none => .ok ([], db))
  rcases hs : with_sql_cursor env true (fun db =>
    match findTable db tn with
    | some t => .ok (tableInfoRows t, db)
    | none => .ok ([], db))
    with ⟨res, evs, env2⟩
  rw [hs] at h
  unfold describe_table
  rw [hs]
  rcases res with e | rows
  · cases e <;> simpa using h.1
  · simpa using h.1

theorem list_tables_env (env : Env) (r : String) : (list_tables env r).env = env := by
  have h := with_sql_cursor_readonly_no_commit env (fun db =>
    .ok ((db.tables.map Table.name).filter (fun n => !(likeMatch "sqlite_%" n)), db))
  rcases hs : with_sql_cursor env true (fun db =>
    .ok ((db.tables.map Table.name).filter (fun n => !(likeMatch "sqlite_%" n)), db))
    with ⟨res, evs, env2⟩
  rw [hs] at h
  unfold list_tables
  rw [hs]
  rcases res with e | rows
  · cases e <;> simpa using h.2
  · simpa using h.2

theorem sample_table_env (env : Env) (r tn : String) (n : Int) :
    (sample_table env r tn n).env = env := by
  have h := with_sql_cursor_readonly_no_commit env (fun db =>
    match findTable db tn with
    | some t => .ok ((if n < 0 then t.rows else t.rows.take n.toNat), db)
    | none => .error (.operationalError ("no such table: " ++ tn)))
  rcases hs : with_sql_cursor env true (fun db =>
    match findTable db tn with
    | some t => .ok ((if n < 0 then t.rows else t.rows.take n.toNat), db)
    | none => .error (.operationalError ("no such table: " ++ tn)))
    with ⟨res, evs, env2⟩
  rw [hs] at h
  unfold sample_table
  rw [hs]
  rcases res with e | rows
  · cases e <;> simpa using h.2
  · simpa using h.2

theorem describe_table_env (env : Env) (r tn : String) :
    (describe_table env r tn).env = env := by
  have h := with_sql_cursor_readonly_no_commit env (fun db =>
    match findTable db tn with
    | some t => .ok (tableInfoRows t, db)
    | none => .ok ([], db))
  rcases hs : with_sql_cursor env true (fun db =>
    match findTable db tn with
    | some t => .ok (tableInfoRows t, db)
    | none => .ok ([], db))
    with ⟨res, evs, env2⟩
  rw [hs] at h
  unfold describe_table
  rw [hs]
  rcases res with e | rows
  · cases e <;> simpa using h.2
  · simpa using h.2

/-- If two strings differ at a character position inside the shorter one,
the longer cannot extend the shorter: used to separate the fixed
"no database" text from the `Error <doing>: <engine text>` family. -/
theorem string_ne_append_of_getD (x p : String) (i : Nat)
    (hip : i < p.data.length) (hne : x.data.getD i ' ' ≠ p.data.getD i ' ') :
    ∀ s, x ≠ p ++ s := by
  intro s he
  apply hne
  rw [he]
  show (p ++ s).data.getD i ' ' = p.data.getD i ' '
  have hd : (p ++ s).data = p.data ++ s.data := rfl
  rw [hd]
  exact List.getD_append p.data s.data ' ' i hip

/-! # Claims -/

/-! ## C1 — commit policy of the four tools -/

/-- C1 (code_bug): the spec says `execute_sql` is treated as mutating and
is always committed on success, while the three inspection tools run
read-only.  The read-only half is true, but `execute_sql` opens its
session with `with_sql_cursor()` — the `readonly=True` default — so the
session NEVER commits: for every engine, environment and statement the
event trace of `execute_sql` has no commit and the stored files are
unchanged; in particular a successful INSERT (last conjunct) returns a
success result yet only closes cursor and connection, silently discarding
the change. -/
theorem execute_sql_session_never_commits :
    (∀ (engine : Engine) (env : Env) (r q : String),
      DBEvent.commit ∉ (execute_sql engine env r q).events
      ∧ (execute_sql engine env r q).env = env)
    ∧ (∀ (env : Env) (r : String), DBEvent.commit ∉ (list_tables env r).events)
    ∧ (∀ (env : Env) (r tn : String) (n : Int),
        DBEvent.commit ∉ (sample_table env r tn n).events)
    ∧ (∀ (env : Env) (r tn : String), DBEvent.commit ∉ (describe_table env r tn).events)
    ∧ ((execute_sql c1Engine c1Env "add a row" "INSERT INTO items VALUES (1)").out = ""
       ∧ (execute_sql c1Engine c1Env "add a row" "INSERT INTO items VALUES (1)").events
           = [DBEvent.closeCursor, DBEvent.closeConn]
       ∧ (execute_sql c1Engine c1Env "add a row" "INSERT INTO items VALUES (1)").env = c1Env) :=
  ⟨execute_sql_no_commit, list_tables_no_commit, sample_table_no_commit,
   describe_table_no_commit, by decide, by decide, by decide⟩

/-! ## C5 — behaviour of all four tools without a database -/

/-- C5: whenever the database handle is unset or its target file does not
exist, each of the four tools returns the identical "no database" string
(the tools catch `FileNotFoundError` from `with_sql_cursor` and return
this text; they catch every other exception too, so — as their embedding
returns a plain string — they never raise), and that string is not of the
form of any of the four query-execution error texts. -/
theorem tools_without_database (env : Env) (engine : Engine) (r tn q : String)
    (n : Int) (h : dbUnavailable env = true) :
    (list_tables env r).out = noDbMsg
    ∧ (sample_table env r tn n).out = noDbMsg
    ∧ (describe_table env r tn).out = noDbMsg
    ∧ (execute_sql engine env r q).out = noDbMsg
    ∧ (∀ s, noDbMsg ≠ "Error listing tables: " ++ s)
    ∧ (∀ s, noDbMsg ≠ "Error sampling table: " ++ s)
    ∧ (∀ s, noDbMsg ≠ "Error describing table: " ++ s)
    ∧ (∀ s, noDbMsg ≠ "Error running query: " ++ s) := by
  refine ⟨?_, ?_, ?_, ?_, ?_, ?_, ?_, ?_⟩
  · obtain ⟨m, hm⟩ := with_sql_cursor_unavailable env true (fun db =>
      .ok ((db.tables.map Table.name).filter (fun n => !(likeMatch "sqlite_%" n)), db)) h
    unfold list_tables
    rw [hm]
  · obtain ⟨m, hm⟩ := with_sql_cursor_unavailable env true (fun db =>
      match findTable db tn with
      | some t => .ok ((if n < 0 then t.rows else t.rows.take n.toNat), db)
      | none => .error (.operationalError ("no such table: " ++ tn))) h
    unfold sample_table
    rw [hm]
  · obtain ⟨m, hm⟩ := with_sql_cursor_unavailable env true (fun db =>
      match findTable db tn with
      | some t => .ok (tableInfoRows t, db)
      | none => .ok ([], db)) h
    unfold describe_table
    rw [hm]
  · obtain ⟨m, hm⟩ := with_sql_cursor_unavailable env true (fun db =>
      match engine db q with
      | .ok (rows, db2) => .ok (rows, db2)
      | .error m => .error (.operationalError m)) h
    unfold execute_sql
    rw [hm]
  · exact string_ne_append_of_getD _ _ 5 (by decide) (by decide)
  · exact string_ne_append_of_getD _ _ 5 (by decide) (by decide)
  · exact string_ne_append_of_getD _ _ 5 (by decide) (by decide)
  · exact string_ne_append_of_getD _ _ 5 (by decide) (by decide)

/-- Witness for C5 at a concrete unavailable environment (handle unset),
and at one whose target file is missing. -/
theorem tools_without_database_witness :
    (list_tables ⟨none, []⟩ "r").out = noDbMsg
    ∧ (sample_table ⟨none, []⟩ "r" "t" 3).out = noDbMsg
    ∧ (describe_table ⟨some "gone.db", []⟩ "r" "t").out = noDbMsg
    ∧ (execute_sql (fun db _ => .ok ([], db)) ⟨some "gone.db", []⟩ "r" "SELECT 1").out
        = noDbMsg := by
  have h1 := tools_without_database ⟨none, []⟩ (fun db _ => .ok ([], db)) "r" "t" "SELECT 1" 3
    (by decide)
  have h2 := tools_without_database ⟨some "gone.db", []⟩ (fun db _ => .ok ([], db)) "r" "t"
    "SELECT 1" 3 (by decide)
  exact ⟨h1.1, h1.2.1, h2.2.2.1, h2.2.2.2.1⟩

/-! ## C6 — the scoped session contract past the precondition -/

/-- C6: once `with_sql_cursor` gets past the database-path precondition,
on every exit path the cursor and then the connection are closed (the
events end with the two closes); with `readonly = False` a normal exit
commits before the closes and returns the body's value, and a failing
body rolls back before the closes and propagates the body's exception. -/
theorem with_sql_cursor_scope_contract {α : Type} (env : Env) (p : String)
    (db : Database) (ro : Bool) (body : Database → Except PyExn (α × Database))
    (hp : env.databasePath = some p) (hl : lookupFile env.files p = some db) :
    ((with_sql_cursor env ro body).events.getLast? = some DBEvent.closeConn
     ∧ DBEvent.closeCursor ∈ (with_sql_cursor env ro body).events)
    ∧ (∀ a db2, body db = .ok (a, db2) → ro = false →
        (with_sql_cursor env ro body).result = .ok a
        ∧ (with_sql_cursor env ro body).events
            = [DBEvent.commit, DBEvent.closeCursor, DBEvent.closeConn])
    ∧ (∀ e, body db = .error e → ro = false →
        (with_sql_cursor env ro body).result = .error e
        ∧ (with_sql_cursor env ro body).events
            = [DBEvent.rollback, DBEvent.closeCursor, DBEvent.closeConn]) := by
  refine ⟨?_, ?_, ?_⟩
  · cases hb : body db with
    | ok x =>
      cases x with
      | mk a db2 =>
        cases ro <;> simp [with_sql_cursor, hp, hl, hb, List.getLast?]
    | error e => cases ro <;> simp [with_sql_cursor, hp, hl, hb, List.getLast?]
  · intro a db2 hb hro
    subst hro
    simp [with_sql_cursor, hp, hl, hb]
  · intro e hb hro
    subst hro
    simp [with_sql_cursor, hp, hl, hb]

/-- Witness for C6: the contract applied at concrete runs. -/
theorem with_sql_cursor_scope_contract_witness :
    ((with_sql_cursor c6Env false c6BodyOk).result = .ok 7
     ∧ (with_sql_cursor c6Env false c6BodyOk).events
         = [DBEvent.commit, DBEvent.closeCursor, DBEvent.closeConn])
    ∧ ((with_sql_cursor c6Env false c6BodyErr).result
         = .error (.operationalError "boom")
       ∧ (with_sql_cursor c6Env false c6BodyErr).events
           = [DBEvent.rollback, DBEvent.closeCursor, DBEvent.closeConn]) := by
  have h1 := with_sql_cursor_scope_contract c6Env "w.db" c1Db false c6BodyOk rfl rfl
  have h2 := with_sql_cursor_scope_contract c6Env "w.db" c1Db false c6BodyErr rfl rfl
  exact ⟨h1.2.1 7 c1Db rfl rfl, h2.2.2 (.operationalError "boom") rfl rfl⟩

/-! ## C2 — totality of the dispatcher -/

/-- C2 (counterexample): `call_tool` is NOT total.  For a tool call whose
name matches no registry entry, the dict subscript
`tools_by_name[tool_call["name"]]` raises `KeyError` — the exception
escapes to the caller instead of being reported inside a tool-result. -/
theorem call_tool_unknown_name_raises :
    call_tool c2Engine c2Env ⟨"call_1", "bogus", Args.none'⟩
      = (.error (.keyError "bogus"), c2Env) := by
  decide

/-- C2 (amended): for every tool call whose name resolves against the
registry and whose arguments satisfy the resolved tool's schema,
`call_tool` returns a tool-result message tagged with the original call
identifier and leaves the process state unchanged — the tool bodies catch
every exception, so nothing is raised.  An unresolved name, however,
raises `KeyError` to the caller (see `call_tool_unknown_name_raises`)
rather than being reported inside the result text. -/
theorem call_tool_resolved_total (engine : Engine) (env : Env) (tc : ToolCall)
    (hname : tc.name = "list_tables" ∨ tc.name = "sample_table"
      ∨ tc.name = "describe_table" ∨ tc.name = "execute_sql")
    (hargs : requiredArgsPresent tc.name tc.args = true) :
    ∃ content, call_tool engine env tc = (.ok (.tool content tc.id), env) := by
  rcases tc with ⟨id, name, args⟩
  rcases args with ⟨rsn, tn, n, q⟩
  rcases hname with hn | hn | hn | hn <;> subst hn <;>
    simp only [requiredArgsPresent, String.reduceEq, if_true, if_false, ite_true,
      ite_false, Bool.and_eq_true, Option.isSome_iff_exists] at hargs
  · obtain ⟨r, hr⟩ := hargs
    subst hr
    refine ⟨(list_tables env r).out, ?_⟩
    calc call_tool engine env ⟨id, "list_tables", ⟨some r, tn, n, q⟩⟩
        = (.ok (.tool (list_tables env r).out id), (list_tables env r).env) := rfl
      _ = (.ok (.tool (list_tables env r).out id), env) := by rw [list_tables_env]
  · obtain ⟨⟨⟨r, hr⟩, t, ht⟩, k, hk⟩ := hargs
    subst hr; subst ht; subst hk
    refine ⟨(sample_table env r t k).out, ?_⟩
    calc call_tool engine env ⟨id, "sample_table", ⟨some r, some t, some k, q⟩⟩
        = (.ok (.tool (sample_table env r t k).out id), (sample_table env r t k).env) := rfl
      _ = (.ok (.tool (sample_table env r t k).out id), env) := by rw [sample_table_env]
  · obtain ⟨⟨r, hr⟩, t, ht⟩ := hargs
    subst hr; subst ht
    refine ⟨(describe_table env r t).out, ?_⟩
    calc call_tool engine env ⟨id, "describe_table", ⟨some r, some t, n, q⟩⟩
        = (.ok (.tool (describe_table env r t).out id), (describe_table env r t).env) := rfl
      _ = (.ok (.tool (describe_table env r t).out id), env) := by rw [describe_table_env]
  · obtain ⟨⟨r, hr⟩, s, hs⟩ := hargs
    subst hr; subst hs
    refine ⟨(execute_sql engine env r s).out, ?_⟩
    calc call_tool engine env ⟨id, "execute_sql", ⟨some r, tn, n, some s⟩⟩
        = (.ok (.tool (execute_sql engine env r s).out id), (execute_sql engine env r s).env) := rfl
      _ = (.ok (.tool (execute_sql engine env r s).out id), env) := by
          rw [(execute_sql_no_commit engine env r s).2]

/-- Witness for C2 (amended) at a concrete resolvable call. -/
theorem call_tool_resolved_total_witness :
    ∃ content,
      call_tool c2Engine c2Env ⟨"call_7", "list_tables", ⟨some "why", none, none, none⟩⟩
        = (.ok (.tool content "call_7"), c2Env) :=
  call_tool_resolved_total c2Engine c2Env
    ⟨"call_7", "list_tables", ⟨some "why", none, none, none⟩⟩ (Or.inl rfl) (by decide)

/-! ## C7 — what list_tables actually filters -/

/-- C7 (counterexample): on `c7Db` the code returns `[]` — the LIKE
pattern swallows the user table `sqlites` — while the claim's rendering
of "user tables minus the sqlite_-prefixed ones" keeps it. -/
theorem list_tables_excludes_non_internal_name :
    (list_tables c7Env "why").out = "[]"
    ∧ listTablesSpec c7Db = pyStrList ["sqlites"]
    ∧ (list_tables c7Env "why").out ≠ listTablesSpec c7Db := by
  refine ⟨by decide, by decide, by decide⟩

theorem likeStar_done (s : List Char) : likeStar (fun t => t.isEmpty) s = true := by
  induction s with
  | nil => rfl
  | cons c ss ih => simp [likeStar, ih]

theorem likeChars_sqlite_prefixed (rest : List Char) :
    likeChars (String.data "sqlite_%")
      ('s' :: 'q' :: 'l' :: 'i' :: 't' :: 'e' :: '_' :: rest) = true := by
  have hp : String.data "sqlite_%" = ['s', 'q', 'l', 'i', 't', 'e', '_', '%'] := rfl
  rw [hp]
  simp only [likeChars, lowerAscii]
  norm_num [likeStar_done]

theorem likeMatch_of_hasSqlitePre (n : String) (h : hasSqlitePre n = true) :
    likeMatch "sqlite_%" n = true := by
  unfold hasSqlitePre at h
  unfold likeMatch
  split at h
  · rename_i heq
    rw [heq]
    exact likeChars_sqlite_prefixed _
  · exact absurd h (by simp)

/-- The reachable-database behaviour of `list_tables`. -/
theorem list_tables_reachable (env : Env) (p : String) (db : Database) (r : String)
    (hp : env.databasePath = some p) (hl : lookupFile env.files p = some db) :
    list_tables env r
      = ⟨pyStrList ((db.tables.map Table.name).filter (fun n => !(likeMatch "sqlite_%" n))),
         [DBEvent.closeCursor, DBEvent.closeConn], env⟩ := by
  have hm := with_sql_cursor_ok env p db (fun db =>
      .ok ((db.tables.map Table.name).filter (fun n => !(likeMatch "sqlite_%" n)), db))
    ((db.tables.map Table.name).filter (fun n => !(likeMatch "sqlite_%" n))) db hp hl rfl
  unfold list_tables
  rw [hm]

/-- C7 (amended): for every reachable database, `list_tables` returns the
string rendering of the table names NOT matching the SQL LIKE pattern
`sqlite_%` (`_` being the one-character wildcard, matching
case-insensitively) — this excludes every `sqlite_`-prefixed
engine-internal table, but also any user table such as `sqlites` whose
name is `sqlite` followed by one further character; on a database with no
user tables it returns the empty list literal `[]` and not an error. -/
theorem list_tables_like_filtering (env : Env) (p : String) (db : Database) (r : String)
    (hp : env.databasePath = some p) (hl : lookupFile env.files p = some db) :
    (list_tables env r).out
      = pyStrList ((db.tables.map Table.name).filter (fun n => !(likeMatch "sqlite_%" n)))
    ∧ (∀ n, n ∈ db.tables.map Table.name → hasSqlitePre n = true →
        n ∉ (db.tables.map Table.name).filter (fun n => !(likeMatch "sqlite_%" n)))
    ∧ (db.tables = [] → (list_tables env r).out = "[]") := by
  refine ⟨?_, ?_, ?_⟩
  · rw [list_tables_reachable env p db r hp hl]
  · intro n _ hpre hmem
    have := (List.mem_filter.mp hmem).2
    rw [likeMatch_of_hasSqlitePre n hpre] at this
    simp at this
  · intro hdb
    rw [list_tables_reachable env p db r hp hl, hdb]
    rfl

theorem list_tables_like_filtering_witness :
    (list_tables ⟨some "w7.db", [("w7.db", c7WitnessDb)]⟩ "r").out = pyStrList ["users"]
    ∧ "sqlite_sequence"
        ∉ (c7WitnessDb.tables.map Table.name).filter (fun n => !(likeMatch "sqlite_%" n)) := by
  have h := list_tables_like_filtering ⟨some "w7.db", [("w7.db", c7WitnessDb)]⟩ "w7.db"
    c7WitnessDb "r" rfl rfl
  refine ⟨?_, ?_⟩
  · rw [h.1]; decide
  · exact h.2.1 "sqlite_sequence" (by decide) (by decide)

/-! ## C8 — sample_table returns one line per fetched row -/

theorem char_digit_ne_nl (m : Nat) (hm : m < 10) : Char.ofNat (48 + m) ≠ '\n' := by
  interval_cases m <;> decide

theorem natCharsCore_no_nl (fuel : Nat) :
    ∀ (n : Nat) (acc : List Char), '\n' ∉ acc → '\n' ∉ natCharsCore fuel n acc := by
  induction fuel with
  | zero => intro n acc hacc; exact hacc
  | succ fuel ih =>
    intro n acc hacc
    unfold natCharsCore
    split
    · rename_i hlt
      intro hmem
      rcases List.mem_cons.mp hmem with h | h
      · exact char_digit_ne_nl n hlt h.symm
      · exact hacc h
    · apply ih
      intro hmem
      rcases List.mem_cons.mp hmem with h | h
      · exact char_digit_ne_nl (n % 10) (Nat.mod_lt n (by decide)) h.symm
      · exact hacc h

theorem intChars_no_nl (i : Int) : '\n' ∉ intChars i := by
  unfold intChars natChars
  split
  · intro hmem
    rcases List.mem_cons.mp hmem with h | h
    · exact absurd h (by decide)
    · exact natCharsCore_no_nl _ _ _ (by simp) h
  · exact natCharsCore_no_nl _ _ _ (by simp)

theorem escChar_no_nl (c : Char) : '\n' ∉ escChar c := by
  unfold escChar
  split
  · decide
  · split
    · decide
    · split
      · decide
      · rename_i h _ _
        intro hmem
        rcases List.mem_singleton.mp hmem with rfl
        exact h rfl

theorem pyEscape_no_nl (s : String) : '\n' ∉ (pyEscape s).data := by
  show '\n' ∉ (s.data.map escChar).flatten
  intro hmem
  rcases List.mem_flatten.mp hmem with ⟨l, hl, hc⟩
  rcases List.mem_map.mp hl with ⟨c, _, rfl⟩
  exact escChar_no_nl c hc

theorem pyRepr_no_nl (s : String) : '\n' ∉ (pyRepr s).data := by
  have hd : (pyRepr s).data = squoteChar :: ((pyEscape s).data ++ [squoteChar]) := rfl
  rw [hd]
  intro hmem
  rcases List.mem_cons.mp hmem with h | h
  · exact absurd h (by decide)
  · rcases List.mem_append.mp h with h | h
    · exact pyEscape_no_nl s h
    · exact absurd (List.mem_singleton.mp h) (by decide)

theorem renderValue_no_nl (v : Value) : '\n' ∉ (renderValue v).data := by
  cases v with
  | int i => exact intChars_no_nl i
  | text s => exact pyRepr_no_nl s
  | null => decide

theorem pyJoin_no_nl (sep : String) (hsep : '\n' ∉ sep.data) :
    ∀ l : List String, (∀ s ∈ l, '\n' ∉ s.data) → '\n' ∉ (pyJoin sep l).data := by
  intro l
  induction l with
  | nil =>
    intro _ hmem
    rw [show pyJoin sep [] = "" from rfl] at hmem
    exact absurd hmem (by decide)
  | cons s rest ih =>
    intro hl
    cases rest with
    | nil => exact hl s (by simp)
    | cons s2 rest2 =>
      have hd : (pyJoin sep (s :: s2 :: rest2)).data
          = (s.data ++ sep.data) ++ (pyJoin sep (s2 :: rest2)).data := rfl
      rw [hd]
      intro hmem
      rcases List.mem_append.mp hmem with h | h
      · rcases List.mem_append.mp h with h | h
        · exact hl s (by simp) h
        · exact hsep h
      · exact ih (fun t ht => hl t (List.mem_cons_of_mem s ht)) h

theorem renderRow_no_nl (row : List Value) : '\n' ∉ (renderRow row).data := by
  unfold renderRow
  split
  · rename_i v
    have hd : ("(" ++ renderValue v ++ ",)").data
        = '(' :: ((renderValue v).data ++ [',', ')']) := rfl
    rw [hd]
    intro hmem
    rcases List.mem_cons.mp hmem with h | h
    · exact absurd h (by decide)
    · rcases List.mem_append.mp h with h | h
      · exact renderValue_no_nl v h
      · exact absurd h (by decide)
  · have hd : ("(" ++ pyJoin ", " (row.map renderValue) ++ ")").data
        = '(' :: ((pyJoin ", " (row.map renderValue)).data ++ [')']) := rfl
    rw [hd]
    intro hmem
    rcases List.mem_cons.mp hmem with h | h
    · exact absurd h (by decide)
    · rcases List.mem_append.mp h with h | h
      · refine pyJoin_no_nl ", " (by decide) _ ?_ h
        intro t ht
        rcases List.mem_map.mp ht with ⟨v, _, rfl⟩
        exact renderValue_no_nl v
      · exact absurd h (by decide)

theorem renderRow_ne_nil (row : List Value) : (renderRow row).data ≠ [] := by
  unfold renderRow
  split
  · rename_i v
    have hd : ("(" ++ renderValue v ++ ",)").data
        = '(' :: ((renderValue v).data ++ [',', ')']) := rfl
    rw [hd]
    simp
  · have hd : ("(" ++ pyJoin ", " (row.map renderValue) ++ ")").data
        = '(' :: ((pyJoin ", " (row.map renderValue)).data ++ [')']) := rfl
    rw [hd]
    simp

theorem pyJoin_nl_ne_nil (s : String) (l : List String) (hs : s.data ≠ []) :
    (pyJoin "\n" (s :: l)).data ≠ [] := by
  cases l with
  | nil => exact hs
  | cons s2 rest =>
    have hd : (pyJoin "\n" (s :: s2 :: rest)).data
        = (s.data ++ ("\n").data) ++ (pyJoin "\n" (s2 :: rest)).data := rfl
    rw [hd]
    simp

theorem countLines_pyJoin (l : List String)
    (h : ∀ s ∈ l, s.data ≠ [] ∧ '\n' ∉ s.data) :
    countLines (pyJoin "\n" l) = l.length := by
  induction l with
  | nil => rfl
  | cons s rest ih =>
    cases rest with
    | nil =>
      have hs := h s (by simp)
      rw [show pyJoin "\n" [s] = s from rfl]
      unfold countLines
      rw [if_neg hs.1, List.count_eq_zero.mpr hs.2]
      rfl
    | cons s2 rest2 =>
      have hs := h s (by simp)
      have hrest : ∀ t ∈ s2 :: rest2, t.data ≠ [] ∧ '\n' ∉ t.data :=
        fun t ht => h t (List.mem_cons_of_mem s ht)
      have hihs := ih hrest
      have htne : (pyJoin "\n" (s2 :: rest2)).data ≠ [] :=
        pyJoin_nl_ne_nil s2 rest2 (hrest s2 (by simp)).1
      have hd : (pyJoin "\n" (s :: s2 :: rest2)).data
          = s.data ++ ('\n' :: (pyJoin "\n" (s2 :: rest2)).data) := by
        rw [show (pyJoin "\n" (s :: s2 :: rest2)).data
            = (s.data ++ ("\n").data) ++ (pyJoin "\n" (s2 :: rest2)).data from rfl,
          List.append_assoc]
        rfl
      unfold countLines at hihs ⊢
      rw [if_neg htne] at hihs
      rw [hd, if_neg (by simp [hs.1]), List.count_append, List.count_cons_self,
        List.count_eq_zero.mpr hs.2]
      simp only [List.length_cons] at hihs ⊢
      omega

/-- The reachable-database, positive-limit behaviour of `sample_table`
on an existing table. -/
theorem sample_table_reachable (env : Env) (p : String) (db : Database) (t : Table)
    (r tn : String) (n : Int) (hp : env.databasePath = some p)
    (hl : lookupFile env.files p = some db) (ht : findTable db tn = some t)
    (hn : ¬ n < 0) :
    sample_table env r tn n
      = ⟨pyJoin "\n" ((t.rows.take n.toNat).map renderRow),
         [DBEvent.closeCursor, DBEvent.closeConn], env⟩ := by
  have hm := with_sql_cursor_ok env p db (fun db =>
      match findTable db tn with
      | some t => .ok ((if n < 0 then t.rows else t.rows.take n.toNat), db)
      | none => .error (.operationalError ("no such table: " ++ tn)))
    (t.rows.take n.toNat) db hp hl (by simp [ht, if_neg hn])
  unfold sample_table
  rw [hm]

/-- C8: for every reachable database, existing table and positive
`row_sample_size` N, `sample_table` renders exactly the first
`min N (number of rows)` rows, one line per row (each line one row tuple),
hence never more than N lines. -/
theorem sample_table_row_lines (env : Env) (p : String) (db : Database) (t : Table)
    (r tn : String) (n : Int) (hp : env.databasePath = some p)
    (hl : lookupFile env.files p = some db) (ht : findTable db tn = some t)
    (hn : 0 < n) :
    (sample_table env r tn n).out = pyJoin "\n" ((t.rows.take n.toNat).map renderRow)
    ∧ countLines (sample_table env r tn n).out = min n.toNat t.rows.length
    ∧ countLines (sample_table env r tn n).out ≤ n.toNat := by
  have hr := sample_table_reachable env p db t r tn n hp hl ht (by omega)
  have hcnt : countLines (pyJoin "\n" ((t.rows.take n.toNat).map renderRow))
      = ((t.rows.take n.toNat).map renderRow).length := by
    apply countLines_pyJoin
    intro s hsmem
    rcases List.mem_map.mp hsmem with ⟨row, _, rfl⟩
    exact ⟨renderRow_ne_nil row, renderRow_no_nl row⟩
  have hlen : ((t.rows.take n.toNat).map renderRow).length = min n.toNat t.rows.length := by
    rw [List.length_map, List.length_take]
  refine ⟨by rw [hr], ?_, ?_⟩
  · rw [hr]
    show countLines (pyJoin "\n" ((t.rows.take n.toNat).map renderRow))
        = min n.toNat t.rows.length
    rw [hcnt, hlen]
  · rw [hr]
    show countLines (pyJoin "\n" ((t.rows.take n.toNat).map renderRow)) ≤ n.toNat
    rw [hcnt, hlen]
    exact Nat.min_le_left _ _

/-- Witness for C8: `row_sample_size = 3` on a one-row table yields
exactly one rendered line. -/
theorem sample_table_row_lines_witness :
    countLines (sample_table c8Env "r" "t" 3).out = 1
    ∧ (sample_table c8Env "r" "t" 3).out = renderRow [Value.int 1] := by
  have h := sample_table_row_lines c8Env "c8.db" c8Db
    ⟨"t", [⟨"id", "INTEGER", false, none, 0⟩], [[Value.int 1]]⟩ "r" "t" 3 rfl rfl rfl
    (by decide)
  exact ⟨h.2.1, by rw [h.1]; decide⟩

/-! ## C9 — save/load round trip of a conversation -/

theorem userAssistantText_create_history_append (l : List Message) :
    userAssistantText (create_history ++ l) = userAssistantText l := rfl

/-- Serialization drops system messages and tool messages and keeps the
user/assistant text sequence intact. -/
theorem userAssistantText_serialize_roundtrip (msgs : List Message) :
    userAssistantText
        (((msgs.filter (fun m => !(isSystem m))).map serializeMsg).filterMap deserializeMsg)
      = userAssistantText msgs := by
  induction msgs with
  | nil => rfl
  | cons m rest ih =>
    cases m <;>
      simp [List.filter, isSystem, serializeMsg, className, contentOf, List.filterMap,
        deserializeMsg, userAssistantText] at ih ⊢ <;>
      simp [ih]

/-- C9: for every conversation state saved by a logged-in user (fresh
insert; the AUTO_INCREMENT id is not yet present in the table), loading
the returned session id yields a history whose user/assistant messages
have the same order and text content as the original — system messages
and tool messages are dropped by the round trip, and assistant tool-call
payloads are not persisted. -/
theorem session_roundtrip_preserves_user_assistant (st : AppState) (store : ConvStore)
    (title : String) (msgs : List Message) (uid : Nat)
    (hguest : st.is_guest = false) (huid : st.user_id = some uid)
    (hfresh : ∀ row ∈ store.rows, row.session_id ≠ store.nextId) :
    (save_session st store none title msgs).fst = some store.nextId
    ∧ userAssistantText
        (load_session st (save_session st store none title msgs).snd store.nextId)
      = userAssistantText msgs := by
  have hsave : save_session st store none title msgs
      = (some store.nextId,
         ⟨store.rows
            ++ [⟨store.nextId, uid, "Chat@now",
                 (msgs.filter (fun m => !(isSystem m))).map serializeMsg⟩],
          store.nextId + 1⟩) := by
    unfold save_session
    rw [hguest, huid]
    simp
  refine ⟨by rw [hsave], ?_⟩
  rw [hsave]
  unfold load_session
  rw [hguest, huid]
  simp only [Bool.false_eq_true, if_false]
  have hfind : (store.rows
        ++ [(⟨store.nextId, uid, "Chat@now",
             (msgs.filter (fun m => !(isSystem m))).map serializeMsg⟩ : SessionRow)]).find?
          (fun row => row.session_id = store.nextId && row.user_id = uid)
      = some ⟨store.nextId, uid, "Chat@now",
              (msgs.filter (fun m => !(isSystem m))).map serializeMsg⟩ := by
    rw [List.find?_append]
    have hnone : store.rows.find?
        (fun row => row.session_id = store.nextId && row.user_id = uid) = none := by
      rw [List.find?_eq_none]
      intro row hrow
      simp only [Bool.and_eq_true, decide_eq_true_eq]
      intro hcontra
      exact hfresh row hrow hcontra.1
    rw [hnone]
    simp
  rw [hfind]
  rw [userAssistantText_create_history_append]
  exact userAssistantText_serialize_roundtrip msgs

/-- Witness for C9 at the concrete conversation above. -/
theorem session_roundtrip_witness :
    (save_session c9St c9Store none "t" c9Msgs).fst = some 0
    ∧ userAssistantText
        (load_session c9St (save_session c9St c9Store none "t" c9Msgs).snd 0)
      = userAssistantText c9Msgs :=
  session_roundtrip_preserves_user_assistant c9St c9Store "t" c9Msgs 5 rfl rfl
    (by intro row hrow; exact absurd hrow (by simp [c9Store]))

/-! ## Conversation-loop lemmas (for C3, C4, C10) -/

/-- Dispatching never changes the process state: every tool opens its
session with the readonly default. -/
theorem call_tool_env_eq (engine : Engine) (env : Env) (tc : ToolCall) :
    (call_tool engine env tc).snd = env := by
  unfold call_tool
  cases hf : get_available_tools.find? (fun t => t.name = tc.name) with
  | none => rfl
  | some tool =>
    have hmem : tool ∈ get_available_tools := List.mem_of_find?_eq_some hf
    simp only [get_available_tools, List.mem_cons, List.not_mem_nil, or_false] at hmem
    rcases hmem with rfl | rfl | rfl | rfl
    · cases hr : tc.args.reasoning with
      | none => simp [list_tables_tool, hr]
      | some r => simp [list_tables_tool, hr, list_tables_env]
    · cases hr : tc.args.reasoning <;> cases ht : tc.args.table_name <;>
        cases hn : tc.args.row_sample_size <;>
        simp [sample_table_tool, hr, ht, hn, sample_table_env]
    · cases hr : tc.args.reasoning <;> cases ht : tc.args.table_name <;>
        simp [describe_table_tool, hr, ht, describe_table_env]
    · cases hr : tc.args.reasoning <;> cases hq : tc.args.sql_query <;>
        simp [execute_sql_tool, hr, hq, execute_sql_env]

/-- A successful dispatch yields a tool-result message tagged with the
call's identifier. -/
theorem call_tool_ok_shape (engine : Engine) (env : Env) (tc : ToolCall)
    (m : Message) (h : (call_tool engine env tc).fst = .ok m) :
    ∃ c, m = .tool c tc.id := by
  unfold call_tool at h
  cases hf : get_available_tools.find? (fun t => t.name = tc.name) with
  | none => simp only [hf] at h; simp at h
  | some tool =>
    cases hi : tool.invoke engine env tc.args with
    | ok p =>
      cases p with
      | mk content env2 =>
        simp only [hf, hi, Except.ok.injEq] at h
        exact ⟨content, h.symm⟩
    | error e => simp only [hf, hi] at h; simp at h

theorem heap_get_push_same (h : Heap) (r : Nat) (m : Message) :
    (h.push r m).get r = h.get r ++ [m] := by
  simp [Heap.push, Heap.set, Heap.get]

theorem heap_get_push_ne (h : Heap) (r c : Nat) (m : Message) (hc : c ≠ r) :
    (h.push r m).get c = h.get c := by
  simp [Heap.push, Heap.set, Heap.get, hc]

/-- When every call of a batch dispatches successfully, the whole batch
succeeds and the process state is unchanged. -/
theorem runTools_all_ok (engine : Engine) (msgs : Nat) :
    ∀ (tcs : List ToolCall) (env : Env) (h : Heap),
      (∀ tc ∈ tcs, ∃ m, (call_tool engine env tc).fst = .ok m) →
      ∃ h2, runTools engine env h msgs tcs = .ok (h2, env) := by
  intro tcs
  induction tcs with
  | nil => intro env h _; exact ⟨h, rfl⟩
  | cons tc rest ih =>
    intro env h hok
    obtain ⟨m, hm⟩ := hok tc (by simp)
    have henv := call_tool_env_eq engine env tc
    rcases hcall : call_tool engine env tc with ⟨res, env2⟩
    rw [hcall] at hm henv
    simp only at hm henv
    subst hm
    obtain ⟨h2, hrun⟩ := ih env (h.push msgs m) (fun t ht => hok t (by simp [ht]))
    refine ⟨h2, ?_⟩
    simp only [runTools, hcall]
    rw [henv]
    exact hrun

/-- A successful batch appends exactly one tool-result per call, in
order, to the messages cell (and nothing else), and preserves the
process state. -/
theorem runTools_ok_trace (engine : Engine) (msgs : Nat) :
    ∀ (tcs : List ToolCall) (env : Env) (h h2 : Heap) (env2 : Env),
      runTools engine env h msgs tcs = .ok (h2, env2) →
      env2 = env
      ∧ ∃ results,
          h2.get msgs = h.get msgs ++ results
          ∧ results.length = tcs.length
          ∧ ∀ j, j < results.length →
              ∃ c, results.getD j (Message.system "")
                = Message.tool c ((tcs.getD j defaultToolCall).id) := by
  intro tcs
  induction tcs with
  | nil =>
    intro env h h2 env2 hrun
    unfold runTools at hrun
    cases hrun
    exact ⟨rfl, [], by simp, rfl, by intro j hj; exact absurd hj (by simp)⟩
  | cons tc rest ih =>
    intro env h h2 env2 hrun
    rcases hcall : call_tool engine env tc with ⟨res, envc⟩
    cases res with
    | error e => simp only [runTools, hcall] at hrun; simp at hrun
    | ok m =>
      simp only [runTools, hcall] at hrun
      have henv := call_tool_env_eq engine env tc
      rw [hcall] at henv
      simp only at henv
      rw [henv] at hrun
      obtain ⟨c, hc⟩ := call_tool_ok_shape engine env tc m
        (by rw [hcall])
      obtain ⟨henv2, results, hget, hlen, hpair⟩ := ih env (h.push msgs m) h2 env2 hrun
      refine ⟨henv2, m :: results, ?_, by simp [hlen], ?_⟩
      · rw [hget, heap_get_push_same]
        simp
      · intro j hj
        cases j with
        | zero => exact ⟨c, by simpa using hc⟩
        | succ j' =>
          simp only [List.length_cons] at hj
          obtain ⟨c', hc'⟩ := hpair j' (by omega)
          exact ⟨c', by simpa using hc'⟩

/-- A batch — successful or aborted — only writes the messages cell. -/
theorem runTools_frame (engine : Engine) (msgs : Nat) :
    ∀ (tcs : List ToolCall) (env : Env) (h : Heap) (c : Nat), c ≠ msgs →
      (∀ h2 env2, runTools engine env h msgs tcs = .ok (h2, env2) → h2.get c = h.get c)
      ∧ (∀ e h2 env2, runTools engine env h msgs tcs = .error (e, h2, env2) →
          h2.get c = h.get c) := by
  intro tcs
  induction tcs with
  | nil =>
    intro env h c hc
    constructor
    · intro h2 env2 hrun
      unfold runTools at hrun
      cases hrun
      rfl
    · intro e h2 env2 hrun
      unfold runTools at hrun
      cases hrun
  | cons tc rest ih =>
    intro env h c hc
    constructor
    · intro h2 env2 hrun
      rcases hcall : call_tool engine env tc with ⟨res, envc⟩
      cases res with
      | error e => simp only [runTools, hcall] at hrun; simp at hrun
      | ok m =>
        simp only [runTools, hcall] at hrun
        have := (ih envc (h.push msgs m) c hc).1 h2 env2 hrun
        rw [this, heap_get_push_ne h msgs c m hc]
    · intro e h2 env2 hrun
      rcases hcall : call_tool engine env tc with ⟨res, envc⟩
      cases res with
      | error e' =>
        simp only [runTools, hcall] at hrun
        cases hrun
        rfl
      | ok m =>
        simp only [runTools, hcall] at hrun
        have := (ih envc (h.push msgs m) c hc).2 e h2 env2 hrun
        rw [this, heap_get_push_ne h msgs c m hc]

/-- The loop writes only the messages cell of the heap. -/
theorem askLoop_frame (stub : Stub) (engine : Engine) (msgs : Nat) :
    ∀ (fuel : Nat) (env : Env) (h : Heap) (invok c : Nat), c ≠ msgs →
      (askLoop stub engine env h msgs invok fuel).heap.get c = h.get c := by
  intro fuel
  induction fuel with
  | zero => intro env h invok c hc; rfl
  | succ fuel ih =>
    intro env h invok c hc
    by_cases hempty : (stub invok).tool_calls = []
    · simp only [askLoop, hempty, if_true]
      exact heap_get_push_ne h msgs c _ hc
    · rcases hrt : runTools engine env
        (h.push msgs (.ai (stub invok).content (stub invok).tool_calls)) msgs
        (stub invok).tool_calls with ⟨e, h3, env2⟩ | ⟨h3, env2⟩
      · simp only [askLoop, hempty, if_false, hrt]
        rw [(runTools_frame engine msgs (stub invok).tool_calls env _ c hc).2 e h3 env2 hrt,
          heap_get_push_ne h msgs c _ hc]
      · simp only [askLoop, hempty, if_false, hrt]
        rw [ih env2 h3 (invok + 1) c hc,
          (runTools_frame engine msgs (stub invok).tool_calls env _ c hc).1 h3 env2 hrt,
          heap_get_push_ne h msgs c _ hc]

/-- At the first invocation of a run, the model is sent exactly the
current contents of the messages cell. -/
theorem askLoop_trace_head (stub : Stub) (engine : Engine) (env : Env) (h : Heap)
    (msgs invok fuel : Nat)
    (hne : (askLoop stub engine env h msgs invok fuel).trace ≠ []) :
    (askLoop stub engine env h msgs invok fuel).trace.getD 0 [] = h.get msgs := by
  cases fuel with
  | zero => exact absurd rfl hne
  | succ f =>
    by_cases hempty : (stub invok).tool_calls = []
    · simp [askLoop, hempty]
    · rcases hrt : runTools engine env
        (h.push msgs (.ai (stub invok).content (stub invok).tool_calls)) msgs
        (stub invok).tool_calls with ⟨e, h3, env2⟩ | ⟨h3, env2⟩
      · simp [askLoop, hempty, hrt]
      · simp [askLoop, hempty, hrt]

/-- Between any two consecutive model invocations of a run, the loop
appends the assistant message and then exactly one tool-result per
tool-call request of that assistant message, in order. -/
theorem askLoop_pairing (stub : Stub) (engine : Engine) (msgs : Nat) :
    ∀ (fuel : Nat) (env : Env) (h : Heap) (invok i : Nat),
      i + 1 < (askLoop stub engine env h msgs invok fuel).trace.length →
      ∃ results,
        (askLoop stub engine env h msgs invok fuel).trace.getD (i + 1) []
          = (askLoop stub engine env h msgs invok fuel).trace.getD i []
            ++ (Message.ai (stub (invok + i)).content (stub (invok + i)).tool_calls
                :: results)
        ∧ results.length = (stub (invok + i)).tool_calls.length
        ∧ ∀ j, j < results.length →
            ∃ c, results.getD j (Message.system "")
              = Message.tool c (((stub (invok + i)).tool_calls.getD j defaultToolCall).id) := by
  intro fuel
  induction fuel with
  | zero =>
    intro env h invok i hi
    exact absurd hi (by simp [askLoop])
  | succ fuel ih =>
    intro env h invok i hi
    by_cases hempty : (stub invok).tool_calls = []
    · rw [show (askLoop stub engine env h msgs invok (fuel + 1)).trace
          = [h.get msgs] from by simp [askLoop, hempty]] at hi
      exact absurd hi (by simp)
    · rcases hrt : runTools engine env
        (h.push msgs (.ai (stub invok).content (stub invok).tool_calls)) msgs
        (stub invok).tool_calls with ⟨e, h3, env2⟩ | ⟨h3, env2⟩
      · rw [show (askLoop stub engine env h msgs invok (fuel + 1)).trace
            = [h.get msgs] from by simp [askLoop, hempty, hrt]] at hi
        exact absurd hi (by simp)
      · have htr : (askLoop stub engine env h msgs invok (fuel + 1)).trace
            = h.get msgs :: (askLoop stub engine env2 h3 msgs (invok + 1) fuel).trace := by
          simp [askLoop, hempty, hrt]
        rw [htr] at hi
        simp only [List.length_cons] at hi
        rw [htr]
        cases i with
        | zero =>
          obtain ⟨henv2, results0, hget, hlen, hpair⟩ :=
            runTools_ok_trace engine msgs (stub invok).tool_calls env
              (h.push msgs (.ai (stub invok).content (stub invok).tool_calls)) h3 env2 hrt
          have hA : (askLoop stub engine env2 h3 msgs (invok + 1) fuel).trace ≠ [] := by
            intro hnil
            rw [hnil] at hi
            simp at hi
          refine ⟨results0, ?_, by simpa using hlen, by simpa using hpair⟩
          simp only [List.getD_cons_succ, List.getD_cons_zero]
          rw [askLoop_trace_head stub engine env2 h3 msgs (invok + 1) fuel hA]
          rw [hget, heap_get_push_same]
          simp
        | succ i' =>
          have hih := ih env2 h3 (invok + 1) i' (by omega)
          have harith : invok + 1 + i' = invok + (i' + 1) := by omega
          rw [harith] at hih
          simpa only [List.getD_cons_succ] using hih

/-- With an always-dispatchable, always-tool-calling stub the loop burns
all its fuel: one model invocation per fuel unit, then the iteration
limit failure. -/
theorem askLoop_limit (stub : Stub) (engine : Engine) (msgs : Nat) (env : Env)
    (hok : ∀ i, ∀ tc ∈ (stub i).tool_calls, ∃ m, (call_tool engine env tc).fst = .ok m)
    (hne : ∀ i, (stub i).tool_calls ≠ []) :
    ∀ (fuel : Nat) (h : Heap) (invok : Nat),
      (askLoop stub engine env h msgs invok fuel).result
          = .error (.runtimeError limitMsg)
      ∧ (askLoop stub engine env h msgs invok fuel).invocations = invok + fuel := by
  intro fuel
  induction fuel with
  | zero => intro h invok; exact ⟨rfl, rfl⟩
  | succ fuel ih =>
    intro h invok
    obtain ⟨h2, hrt⟩ := runTools_all_ok engine msgs (stub invok).tool_calls env
      (h.push msgs (.ai (stub invok).content (stub invok).tool_calls)) (hok invok)
    have hr := ih h2 (invok + 1)
    constructor
    · simp [askLoop, hne invok, hrt, hr.1]
    · simp [askLoop, hne invok, hrt, hr.2]
      omega

/-- If the stub's first no-tool-call response comes at invocation
`j + 1 ≤ fuel` (0-indexed `j`) and every earlier batch dispatches
successfully, the loop returns that response's content after exactly
`j + 1` invocations. -/
theorem askLoop_stops (stub : Stub) (engine : Engine) (msgs : Nat) (env : Env) :
    ∀ (j : Nat) (fuel : Nat) (h : Heap) (invok : Nat), j < fuel →
      (stub (invok + j)).tool_calls = [] →
      (∀ j', j' < j → (stub (invok + j')).tool_calls ≠ []
        ∧ ∀ tc ∈ (stub (invok + j')).tool_calls,
            ∃ m, (call_tool engine env tc).fst = .ok m) →
      (askLoop stub engine env h msgs invok fuel).result
          = .ok ((stub (invok + j)).content)
      ∧ (askLoop stub engine env h msgs invok fuel).invocations = invok + j + 1 := by
  intro j
  induction j with
  | zero =>
    intro fuel h invok hj hstop _
    cases fuel with
    | zero => omega
    | succ f =>
      simp only [Nat.add_zero] at hstop
      constructor <;> simp [askLoop, hstop]
  | succ j' ih =>
    intro fuel h invok hj hstop hbefore
    cases fuel with
    | zero => omega
    | succ f =>
      have h0 := hbefore 0 (by omega)
      simp only [Nat.add_zero] at h0
      obtain ⟨h2, hrt⟩ := runTools_all_ok engine msgs (stub invok).tool_calls env
        (h.push msgs (.ai (stub invok).content (stub invok).tool_calls)) h0.2
      have hih := ih f h2 (invok + 1) (by omega)
        (by rw [show invok + 1 + j' = invok + (j' + 1) from by omega]; exact hstop)
        (by intro j'' hj''
            rw [show invok + 1 + j'' = invok + (j'' + 1) from by omega]
            exact hbefore (j'' + 1) (by omega))
      constructor
      · have harith : invok + 1 + j' = invok + (j' + 1) := by omega
        rw [harith] at hih
        simp [askLoop, h0.1, hrt, hih.1]
      · simp [askLoop, h0.1, hrt, hih.2]
        omega

/-! ## Concrete loop inputs shared by the loop claims -/

/-! ## C3 — iteration accounting of the loop -/

/-- C3 (counterexample): a model stub that always returns tool-call
responses whose tool name is unknown makes `ask` die of the `KeyError`
escaping `call_tool` after ONE model invocation — not of the
iteration-limit error after `m = 2` invocations as the claim states. -/
theorem ask_unknown_tool_call_aborts_early :
    (ask stubBogus loopEngine loopEnv "q" loopHeap 0 2).result
        = .error (.keyError "bogus")
    ∧ (ask stubBogus loopEngine loopEnv "q" loopHeap 0 2).invocations = 1
    ∧ (ask stubBogus loopEngine loopEnv "q" loopHeap 0 2).result
        ≠ .error (.runtimeError limitMsg) :=
  ⟨by decide, by decide, by decide⟩

/-- C3 (amended): restricted to stubs all of whose tool-call requests
dispatch successfully (registered name, schema-satisfying arguments):
(1) if the stub always returns tool-call responses, `ask` with ceiling
`m ≥ 1` invokes the model exactly `m` times and then fails with the
iteration-limit `RuntimeError` — there is no `(m+1)`-th invocation;
(2) if the stub first returns a no-tool-call response on invocation
`k ≤ m`, `ask` terminates successfully at that invocation returning the
response's text content. -/
theorem ask_iteration_ceiling (stub : Stub) (engine : Engine) (env : Env)
    (query : String) (h : Heap) (history m : Nat) :
    (1 ≤ m → (∀ i, (stub i).tool_calls ≠ []) →
      (∀ i, ∀ tc ∈ (stub i).tool_calls, ∃ msg, (call_tool engine env tc).fst = .ok msg) →
      (ask stub engine env query h history m).result = .error (.runtimeError limitMsg)
      ∧ (ask stub engine env query h history m).invocations = m)
    ∧ (∀ k, 1 ≤ k → k ≤ m → (stub (k - 1)).tool_calls = [] →
        (∀ j, j < k - 1 → (stub j).tool_calls ≠ []
          ∧ ∀ tc ∈ (stub j).tool_calls,
              ∃ msg, (call_tool engine env tc).fst = .ok msg) →
        (ask stub engine env query h history m).result = .ok ((stub (k - 1)).content)
        ∧ (ask stub engine env query h history m).invocations = k) := by
  constructor
  · intro _ hne hok
    have hl := askLoop_limit stub engine (h.alloc (h.get history)).snd env hok hne m
      ((h.alloc (h.get history)).fst.push (h.alloc (h.get history)).snd (.human query)) 0
    exact ⟨hl.1, by rw [show (ask stub engine env query h history m).invocations
      = (askLoop stub engine env
          ((h.alloc (h.get history)).fst.push (h.alloc (h.get history)).snd (.human query))
          (h.alloc (h.get history)).snd 0 m).invocations from rfl, hl.2]; omega⟩
  · intro k hk1 hkm hstop hbefore
    have hs := askLoop_stops stub engine (h.alloc (h.get history)).snd env (k - 1) m
      ((h.alloc (h.get history)).fst.push (h.alloc (h.get history)).snd (.human query)) 0
      (by omega) (by simpa using hstop) (by simpa using hbefore)
    refine ⟨by simpa using hs.1, ?_⟩
    rw [show (ask stub engine env query h history m).invocations
      = (askLoop stub engine env
          ((h.alloc (h.get history)).fst.push (h.alloc (h.get history)).snd (.human query))
          (h.alloc (h.get history)).snd 0 m).invocations from rfl, hs.2]
    omega

/-- Witness for C3 (amended): the always-tool-calling stub burns exactly
`m = 2` invocations and fails with the limit error; the stub that stops
at its third invocation returns that response's text after exactly 3
invocations with ceiling 10. -/
theorem ask_iteration_ceiling_witness :
    ((ask stubAlways loopEngine loopEnv "q" loopHeap 0 2).result
        = .error (.runtimeError limitMsg)
     ∧ (ask stubAlways loopEngine loopEnv "q" loopHeap 0 2).invocations = 2)
    ∧ ((ask stubStops loopEngine loopEnv "q" loopHeap 0 10).result = .ok "final answer"
       ∧ (ask stubStops loopEngine loopEnv "q" loopHeap 0 10).invocations = 3) := by
  constructor
  · exact (ask_iteration_ceiling stubAlways loopEngine loopEnv "q" loopHeap 0 2).1
      (by decide) (fun i => by simp [stubAlways])
      (fun i tc htc => by
        rw [show tc = ltCall from List.mem_singleton.mp htc]
        exact ⟨Message.tool (pyStrList ["t"]) "c1", by decide⟩)
  · have hs := (ask_iteration_ceiling stubStops loopEngine loopEnv "q" loopHeap 0 10).2 3
      (by decide) (by decide) (by decide)
      (fun j hj => by
        interval_cases j <;>
          exact ⟨by decide, fun tc htc => by
            rw [show tc = ltCall from List.mem_singleton.mp htc]
            exact ⟨Message.tool (pyStrList ["t"]) "c1", by decide⟩⟩)
    exact ⟨hs.1, hs.2⟩

/-! ## C4 — the request/result pairing invariant -/

/-- C4: in every run of `ask` — over any stub, engine and state — the
message list passed to the model at invocation `i+1` extends the one
passed at invocation `i` by exactly the assistant message of invocation
`i` followed by one tool-result message per tool-call request of that
assistant message, in the order the model emitted the requests, each
tagged with its request's id, with nothing else interleaved. -/
theorem ask_pairing_invariant (stub : Stub) (engine : Engine) (env : Env)
    (query : String) (h : Heap) (history m i : Nat)
    (hi : i + 1 < (ask stub engine env query h history m).trace.length) :
    ∃ results,
      (ask stub engine env query h history m).trace.getD (i + 1) []
        = (ask stub engine env query h history m).trace.getD i []
          ++ (Message.ai (stub i).content (stub i).tool_calls :: results)
      ∧ results.length = (stub i).tool_calls.length
      ∧ ∀ j, j < results.length →
          ∃ c, results.getD j (Message.system "")
            = Message.tool c (((stub i).tool_calls.getD j defaultToolCall).id) := by
  have hp := askLoop_pairing stub engine (h.alloc (h.get history)).snd m env
    ((h.alloc (h.get history)).fst.push (h.alloc (h.get history)).snd (.human query)) 0 i hi
  simpa using hp

/-- Witness for C4 at the first invocation of a concrete three-round
run. -/
theorem ask_pairing_invariant_witness :
    ∃ results,
      (ask stubStops loopEngine loopEnv "q" loopHeap 0 10).trace.getD 1 []
        = (ask stubStops loopEngine loopEnv "q" loopHeap 0 10).trace.getD 0 []
          ++ (Message.ai (stubStops 0).content (stubStops 0).tool_calls :: results)
      ∧ results.length = (stubStops 0).tool_calls.length
      ∧ ∀ j, j < results.length →
          ∃ c, results.getD j (Message.system "")
            = Message.tool c (((stubStops 0).tool_calls.getD j defaultToolCall).id) :=
  ask_pairing_invariant stubStops loopEngine loopEnv "q" loopHeap 0 10 0 (by decide)

/-! ## C10 — ask never mutates the caller's history -/

/-- C10: whatever the outcome of the turn (final answer, iteration-limit
failure, or a dispatch exception), the caller's history cell is unchanged
when `ask` returns: the user message, assistant responses and tool
results were appended only to the private copy made by `history.copy()`. -/
theorem ask_preserves_caller_history (stub : Stub) (engine : Engine) (env : Env)
    (query : String) (h : Heap) (history m : Nat) (hh : history < h.next) :
    (ask stub engine env query h history m).heap.get history = h.get history := by
  have hne : history ≠ h.next := Nat.ne_of_lt hh
  have h1 := askLoop_frame stub engine (h.alloc (h.get history)).snd m env
    ((h.alloc (h.get history)).fst.push (h.alloc (h.get history)).snd (.human query)) 0
    history (by simpa [Heap.alloc] using hne)
  rw [show (ask stub engine env query h history m).heap
    = (askLoop stub engine env
        ((h.alloc (h.get history)).fst.push (h.alloc (h.get history)).snd (.human query))
        (h.alloc (h.get history)).snd 0 m).heap from rfl, h1,
    heap_get_push_ne _ _ _ _ (by simpa [Heap.alloc] using hne)]
  simp [Heap.alloc, Heap.get, hne]

/-- Witness for C10: the caller's cell still holds exactly the original
history after a three-round run. -/
theorem ask_preserves_caller_history_witness :
    (ask stubStops loopEngine loopEnv "q" loopHeap 0 10).heap.get 0 = loopHeap.get 0 :=
  ask_preserves_caller_history stubStops loopEngine loopEnv "q" loopHeap 0 10 (by decide)

end Querymind
